import Mathlib

/-
  Verification development for the AI Model Seeding Pipeline
  (tag resolution, model-to-schema mapping, seeding retry layer).

  The Python source (src/pipeline/tag_mapper.py, model_mapper.py,
  seeder.py) is shallowly embedded: JSON-like Python values become the
  inductive `PyVal`, dicts become association lists with Python dict
  semantics (ordered, unique keys, insert-or-replace), and code that can
  raise returns `Except PyErr`.  String repr / json.dumps omit character
  escaping, and str.isdigit / str.lower are modelled over ASCII; none of
  the theorems below depend on those corners.
-/

namespace PySeed

/-- Python/JSON-like values.  `null` models Python None. -/
inductive PyVal where
  | str (s : String)
  | int (n : Int)
  | bool (b : Bool)
  | list (xs : List PyVal)
  | dict (entries : List (String × PyVal))
  | null
deriving Repr

/-- A Python dict with string keys: ordered association list, unique keys. -/
abbrev PyDict := List (String × PyVal)

mutual
/-- Structural decidable equality for `PyVal`. -/
def PyVal.beq : PyVal → PyVal → Bool
  | .str a, .str b => a == b
  | .int a, .int b => a == b
  | .bool a, .bool b => a == b
  | .list a, .list b => PyVal.beqList a b
  | .dict a, .dict b => PyVal.beqDict a b
  | .null, .null => true
  | _, _ => false

/-- Elementwise equality on value lists. -/
def PyVal.beqList : List PyVal → List PyVal → Bool
  | [], [] => true
  | a :: as, b :: bs => PyVal.beq a b && PyVal.beqList as bs
  | _, _ => false

/-- Entrywise equality on dict entry lists. -/
def PyVal.beqDict : List (String × PyVal) → List (String × PyVal) → Bool
  | [], [] => true
  | (k, v) :: as, (l, w) :: bs => k == l && PyVal.beq v w && PyVal.beqDict as bs
  | _, _ => false
end

instance : BEq PyVal := ⟨PyVal.beq⟩

mutual
/-- Soundness and completeness of `PyVal.beq` for propositional equality. -/
theorem PyVal.beq_iff : ∀ a b : PyVal, PyVal.beq a b = true ↔ a = b
  | .str a, .str b => by simp [PyVal.beq]
  | .str _, .int _ => by simp [PyVal.beq]
  | .str _, .bool _ => by simp [PyVal.beq]
  | .str _, .list _ => by simp [PyVal.beq]
  | .str _, .dict _ => by simp [PyVal.beq]
  | .str _, .null => by simp [PyVal.beq]
  | .int _, .str _ => by simp [PyVal.beq]
  | .int a, .int b => by simp [PyVal.beq]
  | .int _, .bool _ => by simp [PyVal.beq]
  | .int _, .list _ => by simp [PyVal.beq]
  | .int _, .dict _ => by simp [PyVal.beq]
  | .int _, .null => by simp [PyVal.beq]
  | .bool _, .str _ => by simp [PyVal.beq]
  | .bool _, .int _ => by simp [PyVal.beq]
  | .bool a, .bool b => by simp [PyVal.beq]
  | .bool _, .list _ => by simp [PyVal.beq]
  | .bool _, .dict _ => by simp [PyVal.beq]
  | .bool _, .null => by simp [PyVal.beq]
  | .list _, .str _ => by simp [PyVal.beq]
  | .list _, .int _ => by simp [PyVal.beq]
  | .list _, .bool _ => by simp [PyVal.beq]
  | .list a, .list b => by
      simp only [PyVal.beq, PyVal.list.injEq]
      exact PyVal.beqList_iff a b
  | .list _, .dict _ => by simp [PyVal.beq]
  | .list _, .null => by simp [PyVal.beq]
  | .dict _, .str _ => by simp [PyVal.beq]
  | .dict _, .int _ => by simp [PyVal.beq]
  | .dict _, .bool _ => by simp [PyVal.beq]
  | .dict _, .list _ => by simp [PyVal.beq]
  | .dict a, .dict b => by
      simp only [PyVal.beq, PyVal.dict.injEq]
      exact PyVal.beqDict_iff a b
  | .dict _, .null => by simp [PyVal.beq]
  | .null, .str _ => by simp [PyVal.beq]
  | .null, .int _ => by simp [PyVal.beq]
  | .null, .bool _ => by simp [PyVal.beq]
  | .null, .list _ => by simp [PyVal.beq]
  | .null, .dict _ => by simp [PyVal.beq]
  | .null, .null => by simp [PyVal.beq]

/-- List version of `PyVal.beq_iff`. -/
theorem PyVal.beqList_iff : ∀ a b : List PyVal, PyVal.beqList a b = true ↔ a = b
  | [], [] => by simp [PyVal.beqList]
  | [], _ :: _ => by simp [PyVal.beqList]
  | _ :: _, [] => by simp [PyVal.beqList]
  | a :: as, b :: bs => by
      simp only [PyVal.beqList, Bool.and_eq_true, List.cons.injEq]
      exact and_congr (PyVal.beq_iff a b) (PyVal.beqList_iff as bs)

/-- Dict-entry version of `PyVal.beq_iff`. -/
theorem PyVal.beqDict_iff : ∀ a b : List (String × PyVal),
    PyVal.beqDict a b = true ↔ a = b
  | [], [] => by simp [PyVal.beqDict]
  | [], _ :: _ => by simp [PyVal.beqDict]
  | _ :: _, [] => by simp [PyVal.beqDict]
  | (k, v) :: as, (l, w) :: bs => by
      simp only [PyVal.beqDict, Bool.and_eq_true, List.cons.injEq, beq_iff_eq,
        Prod.mk.injEq]
      constructor
      · rintro ⟨⟨h1, h2⟩, h3⟩
        exact ⟨⟨h1, (PyVal.beq_iff v w).mp h2⟩, (PyVal.beqDict_iff as bs).mp h3⟩
      · rintro ⟨⟨h1, h2⟩, h3⟩
        exact ⟨⟨h1, (PyVal.beq_iff v w).mpr h2⟩, (PyVal.beqDict_iff as bs).mpr h3⟩
end

instance : DecidableEq PyVal := fun a b =>
  decidable_of_iff (PyVal.beq a b = true) (PyVal.beq_iff a b)

/-- First-match lookup in a dict (keys are unique, so this is the value). -/
def lookup? : PyDict → String → Option PyVal
  | [], _ => Option.none
  | (k, v) :: rest, key => if k = key then some v else lookup? rest key

/-- Python `key in d` on a dict. -/
def containsKey (d : PyDict) (key : String) : Bool := (lookup? d key).isSome

/-- Python `d.get(key, default)`. -/
def dictGet (d : PyDict) (key : String) (default : PyVal) : PyVal :=
  (lookup? d key).getD default

/-- Python `d[key] = v`: replace in place if present, else append. -/
def dictSet : PyDict → String → PyVal → PyDict
  | [], key, v => [(key, v)]
  | (k, w) :: rest, key, v =>
      if k = key then (k, v) :: rest else (k, w) :: dictSet rest key v

/-- A raised Python exception: its class name and message. -/
structure PyErr where
  ty : String
  msg : String
deriving Repr, DecidableEq

/-- Python truthiness: empty containers, empty string, 0, False, None are falsy. -/
def pyTruthy : PyVal → Bool
  | .str s => !s.isEmpty
  | .int n => n != 0
  | .bool b => b
  | .list xs => !xs.isEmpty
  | .dict d => !d.isEmpty
  | .null => false

/-- Does the pattern lead the list?  (Both as character lists.) -/
def leadsChars : List Char → List Char → Bool
  | [], _ => true
  | _ :: _, [] => false
  | a :: as, b :: bs => a == b && leadsChars as bs

/-- Is the pattern a contiguous sublist?  Implements Python substring `in`. -/
def subChars : List Char → List Char → Bool
  | pat, [] => pat.isEmpty
  | pat, c :: rest => leadsChars pat (c :: rest) || subChars pat rest

/-- Python `needle in hay` for strings (substring containment). -/
def pySubstr (needle hay : String) : Bool := subChars needle.data hay.data

/-- Python `str.isdigit` over ASCII: nonempty and all characters are digits. -/
def pyIsdigit (s : String) : Bool := !s.isEmpty && s.data.all Char.isDigit

/-- Python `str.lower` over ASCII: each character lower-cased. -/
def pyLower (s : String) : String := String.mk (s.data.map Char.toLower)

mutual
/-- Python `str(v)`.  Strings pass through unquoted; containers use repr
    of their elements.  Escaping inside nested strings is not modelled. -/
def pyStr : PyVal → String
  | .str s => s
  | .int n => toString n
  | .bool b => if b then "True" else "False"
  | .list xs => "[" ++ ", ".intercalate (pyReprList xs) ++ "]"
  | .dict d => "\x7b" ++ ", ".intercalate (pyReprDict d) ++ "\x7d"
  | .null => "None"

/-- Python `repr(v)`: like `pyStr` but strings are quoted. -/
def pyRepr : PyVal → String
  | .str s => "\x27" ++ s ++ "\x27"
  | .int n => toString n
  | .bool b => if b then "True" else "False"
  | .list xs => "[" ++ ", ".intercalate (pyReprList xs) ++ "]"
  | .dict d => "\x7b" ++ ", ".intercalate (pyReprDict d) ++ "\x7d"
  | .null => "None"

/-- repr of each element of a list. -/
def pyReprList : List PyVal → List String
  | [] => []
  | v :: rest => pyRepr v :: pyReprList rest

/-- repr of each `key: value` entry of a dict. -/
def pyReprDict : List (String × PyVal) → List String
  | [] => []
  | (k, v) :: rest => ("\x27" ++ k ++ "\x27: " ++ pyRepr v) :: pyReprDict rest
end

mutual
/-- Python `json.dumps(v)` with default separators.  String escaping is
    not modelled (no theorem below depends on it). -/
def jsonDumps : PyVal → String
  | .str s => "\x22" ++ s ++ "\x22"
  | .int n => toString n
  | .bool b => if b then "true" else "false"
  | .list xs => "[" ++ ", ".intercalate (jsonDumpsList xs) ++ "]"
  | .dict d => "\x7b" ++ ", ".intercalate (jsonDumpsDict d) ++ "\x7d"
  | .null => "null"

/-- json.dumps of each list element. -/
def jsonDumpsList : List PyVal → List String
  | [] => []
  | v :: rest => jsonDumps v :: jsonDumpsList rest

/-- json.dumps of each dict entry. -/
def jsonDumpsDict : List (String × PyVal) → List String
  | [] => []
  | (k, v) :: rest => ("\x22" ++ k ++ "\x22: " ++ jsonDumps v) :: jsonDumpsDict rest
end

/-- Python iteration `for x in v`: lists yield elements, strings yield
    one-character strings, dicts yield their keys; other values raise
    TypeError. -/
def pyIterate : PyVal → Except PyErr (List PyVal)
  | .list xs => .ok xs
  | .str s => .ok (s.data.map fun c => .str (String.mk [c]))
  | .dict d => .ok (d.map fun kv => .str kv.1)
  | v => .error ⟨"TypeError", pyStr v ++ " object is not iterable"⟩

/-- Python `key in v` for a string key: dict key test, list membership,
    substring test on strings; other values raise TypeError. -/
def pyContains (v : PyVal) (key : String) : Except PyErr Bool :=
  match v with
  | .dict d => .ok (containsKey d key)
  | .list xs => .ok (xs.contains (.str key))
  | .str s => .ok (pySubstr key s)
  | w => .error ⟨"TypeError", "argument of type " ++ pyStr w ++ " is not iterable"⟩

/-- Python `v[key]` for a string key: dict indexing; other values raise. -/
def pyIndex (v : PyVal) (key : String) : Except PyErr PyVal :=
  match v with
  | .dict d =>
      match lookup? d key with
      | some w => .ok w
      | Option.none => .error ⟨"KeyError", key⟩
  | _ => .error ⟨"TypeError", "indices must be integers"⟩

/-- Python `v.get(key, default)`: only dicts have `.get`. -/
def pyAttrGet (v : PyVal) (key : String) (default : PyVal) : Except PyErr PyVal :=
  match v with
  | .dict d => .ok (dictGet d key default)
  | _ => .error ⟨"AttributeError", "object has no attribute get"⟩

/-! ### Tag mapper (src/pipeline/tag_mapper.py)

`SimpleTagMapper._map_tags_impl` and `FallbackTagMapper._map_tags_impl`
both copy the model, read `tags`, normalise each tag with
`str(tag).lower()`, and store the resolved ids under `tagIds`.  The
fallback variant additionally keeps a working copy of the tag map, a
substring-matching pass, and an auto-create counter `next_tag_id` held on
the mapper instance (initialised to 1000 in `__init__`). -/

/-- The normalisation `[str(tag).lower() for tag in tags]`. -/
def normalizeTags (tags : List PyVal) : List String :=
  tags.map fun t => pyLower (pyStr t)

/-- The lookup loop of `SimpleTagMapper._map_tags_impl` (lines 282-289):
    returns `(tag_ids, unmapped_tags)` in input order. -/
def simpleLoop (tagMap : PyDict) : List String → List PyVal × List String
  | [] => ([], [])
  | tag :: rest =>
      let r := simpleLoop tagMap rest
      match lookup? tagMap tag with
      | some v => (v :: r.1, r.2)
      | Option.none => (r.1, tag :: r.2)

/-- Result of a per-model tag-mapping implementation: the tagged model
    copy, the resolved ids, and the (logged-only) unmapped tag names. -/
structure TagOut where
  taggedModel : PyDict
  tagIds : List PyVal
  unmapped : List String
deriving Repr, DecidableEq

/-- Embedding: `SimpleTagMapper._map_tags_impl` (tag_mapper.py lines 249-302).
    Falsy `tags` short-circuits to `tagIds = []`; otherwise each
    normalised tag is looked up verbatim; misses are only recorded in the
    local `unmapped_tags` list (they are logged, never returned). -/
def simple_map_tags_impl (model tagMap : PyDict) : Except PyErr TagOut :=
  let tagsVal := dictGet model "tags" (.list [])
  if !pyTruthy tagsVal then
    .ok ⟨dictSet model "tagIds" (.list []), [], []⟩
  else
    match pyIterate tagsVal with
    | .error e => .error e
    | .ok tags =>
        let r := simpleLoop tagMap (normalizeTags tags)
        .ok ⟨dictSet model "tagIds" (.list r.1), r.1, r.2⟩

/-- The comprehension computing `existing_ids` (tag_mapper.py line 364):
    values that are ints or strings whose `str` form `isdigit`. -/
def numericIds (tagMap : PyDict) : List Int :=
  tagMap.filterMap fun kv =>
    match kv.2 with
    | .int n => if pyIsdigit (toString n) then some n else Option.none
    | .bool b =>
        if pyIsdigit (if b then "True" else "False") then
          some (if b then 1 else 0)
        else Option.none
    | .str s =>
        if pyIsdigit s then
          some ((s.data.foldl (fun acc c => acc * 10 + (c.toNat - 48)) 0 : Nat) : Int)
        else Option.none
    | _ => Option.none

/-- Python `max` over a nonempty list. -/
def listMax : List Int → Option Int
  | [] => Option.none
  | x :: rest => some (rest.foldl max x)

/-- The substring pass of the fallback mapper (lines 380-385): first
    working-map entry matching `tag in map_tag or map_tag in tag` wins. -/
def substrFind (tag : String) : PyDict → Option PyVal
  | [] => Option.none
  | (k, v) :: rest =>
      if pySubstr tag k || pySubstr k tag then some v else substrFind tag rest

/-- Result of the fallback per-model implementation: additionally the
    working tag map and the instance counter after the call. -/
structure FallbackOut where
  taggedModel : PyDict
  tagIds : List PyVal
  unmapped : List String
  workingMap : PyDict
  nextTagId : Int
deriving Repr, DecidableEq

/-- The per-tag loop of `FallbackTagMapper._map_tags_impl` (lines
    372-401), threading the working map and the `next_tag_id` counter. -/
def fallbackLoop (autoCreate : Bool) :
    List String → PyDict → Int → List PyVal × List String × PyDict × Int
  | [], wm, nid => ([], [], wm, nid)
  | tag :: rest, wm, nid =>
      match lookup? wm tag with
      | some v =>
          let r := fallbackLoop autoCreate rest wm nid
          (v :: r.1, r.2.1, r.2.2.1, r.2.2.2)
      | Option.none =>
          match substrFind tag wm with
          | some v =>
              let r := fallbackLoop autoCreate rest wm nid
              (v :: r.1, r.2.1, r.2.2.1, r.2.2.2)
          | Option.none =>
              if autoCreate then
                let r := fallbackLoop autoCreate rest (dictSet wm tag (.int nid)) (nid + 1)
                (.int nid :: r.1, r.2.1, r.2.2.1, r.2.2.2)
              else
                let r := fallbackLoop autoCreate rest wm nid
                (r.1, tag :: r.2.1, r.2.2.1, r.2.2.2)

/-- Embedding: `FallbackTagMapper._map_tags_impl` (tag_mapper.py lines 327-414).
    `nextTagId` is the instance's counter before the call (1000 at
    construction); when auto-create is on and the caller's map holds
    numeric ids, the counter is re-seeded to `max + 1` before the loop.
    The working map starts as a fresh copy of the caller's map on every
    call.  In the falsy-`tags` early return no working copy exists yet;
    we report the caller's map unchanged. -/
def fallback_map_tags_impl (autoCreate : Bool) (nextTagId : Int)
    (model tagMap : PyDict) : Except PyErr FallbackOut :=
  let tagsVal := dictGet model "tags" (.list [])
  if !pyTruthy tagsVal then
    .ok ⟨dictSet model "tagIds" (.list []), [], [], tagMap, nextTagId⟩
  else
    match pyIterate tagsVal with
    | .error e => .error e
    | .ok tags =>
        let seeded :=
          if autoCreate then
            match listMax (numericIds tagMap) with
            | some m => m + 1
            | Option.none => nextTagId
          else nextTagId
        let r := fallbackLoop autoCreate (normalizeTags tags) tagMap seeded
        .ok ⟨dictSet model "tagIds" (.list r.1), r.1, r.2.1, r.2.2.1, r.2.2.2⟩

/-- The `{"success": False, "error": {"message": ...}}` result shape. -/
def errResult (message : String) : PyDict :=
  [("success", .bool false), ("error", .dict [("message", .str message)])]

/-- The result shape produced by the `except Exception` handlers:
    message text `head + str(e)` plus the exception class name. -/
def excResult (head : String) (e : PyErr) : PyDict :=
  [("success", .bool false),
   ("error", .dict [("message", .str (head ++ e.msg)), ("type", .str e.ty)])]

/-- Embedding: `BaseTagMapper.map_tags` (tag_mapper.py lines 38-65), generic in the
    subclass implementation it dispatches to: input validation rejects
    non-dict arguments, and any exception from the implementation is
    caught and converted to an error result. -/
def map_tags_with (impl : PyDict → PyDict → Except PyErr TagOut)
    (model_data tag_map : PyVal) : PyDict :=
  match model_data, tag_map with
  | .dict m, .dict tm =>
      match impl m tm with
      | .ok out => [("success", .bool true), ("tagged_model", .dict out.taggedModel)]
      | .error e => excResult "Tag mapping error: " e
  | _, _ => errResult "Invalid input for tag mapping"

/-- Embedding: `SimpleTagMapper`'s public `map_tags`. -/
def simple_map_tags (model_data tag_map : PyVal) : PyDict :=
  map_tags_with simple_map_tags_impl model_data tag_map

/-- Embedding: `FallbackTagMapper`'s public `map_tags`, threading the instance's
    `next_tag_id` state.  The only raise point of the implementation
    (iterating a non-iterable `tags` value) occurs before any counter
    mutation, so the state is unchanged on the error path. -/
def fallback_map_tags (autoCreate : Bool) (st : Int)
    (model_data tag_map : PyVal) : PyDict × Int :=
  match model_data, tag_map with
  | .dict m, .dict tm =>
      match fallback_map_tags_impl autoCreate st m tm with
      | .ok out =>
          ([("success", .bool true), ("tagged_model", .dict out.taggedModel)],
           out.nextTagId)
      | .error e => (excResult "Tag mapping error: " e, st)
  | _, _ => (errResult "Invalid input for tag mapping", st)

/-- Coerce a value known to be a dict to its entries. -/
def asDict : PyVal → PyDict
  | .dict d => d
  | _ => []

/-- The per-file loop of `BaseTagMapper.map_directory` (lines 150-173)
    for a `FallbackTagMapper` instance: the loaded tag map is fixed for
    the whole pass, the instance counter threads through the calls, and
    each success is written to `out_dir/<stem>_tagged.json`.  Returns
    (written outputs with their content, failed input paths, final
    counter). -/
def tag_map_dir_loop (autoCreate : Bool) (in_dir out_dir : String)
    (tagMap : PyVal) :
    List (String × PyVal) → Int → List (String × PyDict) × List String × Int
  | [], st => ([], [], st)
  | (stem, data) :: rest, st =>
      let r := fallback_map_tags autoCreate st data tagMap
      let next := tag_map_dir_loop autoCreate in_dir out_dir tagMap rest r.2
      if pyTruthy (dictGet r.1 "success" PyVal.null) then
        ((out_dir ++ "/" ++ stem ++ "_tagged.json",
          asDict (dictGet r.1 "tagged_model" PyVal.null)) :: next.1,
         next.2.1, next.2.2)
      else
        (next.1, (in_dir ++ "/" ++ stem ++ ".json") :: next.2.1, next.2.2)

/-! ### Model mapper (src/pipeline/model_mapper.py)

`StandardModelMapper._map_to_api_schema_impl` builds the API record with
defaults; `BaseModelMapper.validate_api_model` collects all field
violations; `BaseModelMapper.map_directory` maps, validates and writes
each file of a directory independently. -/

/-- Python `str.capitalize`: first character upper-cased, rest lower. -/
def pyCapitalize (s : String) : String :=
  match s.data with
  | [] => ""
  | c :: rest => String.mk (c.toUpper :: rest.map Char.toLower)

/-- Accumulator pass for `pySplitWs`: builds the current word in
    reverse and emits it at each whitespace boundary. -/
def splitWsAux : List Char → List Char → List String
  | [], acc => if acc.isEmpty then [] else [String.mk acc.reverse]
  | c :: rest, acc =>
      if c.isWhitespace then
        if acc.isEmpty then splitWsAux rest []
        else String.mk acc.reverse :: splitWsAux rest []
      else splitWsAux rest (c :: acc)

/-- Python `str.split()` with no argument: split on whitespace runs,
    dropping empty pieces. -/
def pySplitWs (s : String) : List String := splitWsAux s.data []

/-- Python `str.replace(old, new)` for the one-character patterns the
    mapper uses: every occurrence of `pat` becomes `rep`. -/
def pyReplaceChar (pat rep : Char) (s : String) : String :=
  String.mk (s.data.map fun c => if c = pat then rep else c)

/-- Embedding: `StandardModelMapper._generate_display_name` (model_mapper.py lines
    328-344).  The Python method calls `.replace` on its argument, so a
    non-string model name raises AttributeError. -/
def generate_display_name (name : PyVal) : Except PyErr String :=
  match name with
  | .str s =>
      let display := pyReplaceChar (Char.ofNat 95) (Char.ofNat 32)
        (pyReplaceChar (Char.ofNat 45) (Char.ofNat 32) s)
      .ok (" ".intercalate ((pySplitWs display).map pyCapitalize))
  | _ => .error ⟨"AttributeError", "object has no attribute replace"⟩

/-- The `api_model` literal of `_map_to_api_schema_impl` (model_mapper.py
    lines 281-288): identity fields with derived defaults. -/
def base_fields (model : PyDict) (model_name : PyVal) (generated : String) :
    PyDict :=
  [("modelId", dictGet model "modelId" (.str ("model-" ++ pyStr model_name))),
   ("name", model_name),
   ("displayName", dictGet model "display_name" (.str generated)),
   ("description", dictGet model "description" (.str ("Model " ++ pyStr model_name))),
   ("isActive", .bool true),
   ("version", .str "1.0")]

/-- Lines 291-297: tagIds pass through when a list, else default to []. -/
def tagIds_step (model : PyDict) (api0 : PyDict) : PyDict :=
  match lookup? model "tagIds" with
  | some (.list xs) => dictSet api0 "tagIds" (.list xs)
  | _ => dictSet api0 "tagIds" (.list [])

/-- Lines 299-306: explicit referenceLink, else a huggingface metadata
    url, else the placeholder.  The `in`/indexing/`.get` chain raises on
    malformed metadata. -/
def reference_link_step (placeholder : String) (model : PyDict)
    (api1 : PyDict) : Except PyErr PyDict :=
  if containsKey model "referenceLink" &&
      pyTruthy (dictGet model "referenceLink" PyVal.null) then
    pure (dictSet api1 "referenceLink" (dictGet model "referenceLink" PyVal.null))
  else if containsKey model "metadata" then do
    let md := dictGet model "metadata" PyVal.null
    let hasHf ← pyContains md "huggingface"
    if hasHf then do
      let hf ← pyIndex md "huggingface"
      let url ← pyAttrGet hf "url" (.str placeholder)
      pure (dictSet api1 "referenceLink" url)
    else
      pure (dictSet api1 "referenceLink" (.str placeholder))
  else
    pure (dictSet api1 "referenceLink" (.str placeholder))

/-- Lines 309-314: a dict `parameters` value is JSON-serialised, any
    other present value stringified. -/
def parameters_step (model : PyDict) (api2 : PyDict) : PyDict :=
  match lookup? model "parameters" with
  | some (.dict d) => dictSet api2 "parameters" (.str (jsonDumps (.dict d)))
  | some v => dictSet api2 "parameters" (.str (pyStr v))
  | Option.none => api2

/-- Embedding: `StandardModelMapper._map_to_api_schema_impl` (model_mapper.py lines
    267-326), with the placeholder URL and the `datetime.now` timestamp
    as explicit parameters.  Python evaluates the default argument of
    `model_data.get("display_name", self._generate_display_name(...))`
    eagerly, so display-name generation runs (and can raise) even when
    an explicit display name is present. -/
def map_to_api_schema_impl (placeholder now : String) (model : PyDict) :
    Except PyErr PyDict := do
  let model_name := dictGet model "name" (.str "unknown")
  let generated ← generate_display_name model_name
  let api1 := tagIds_step model (base_fields model model_name generated)
  let api2 ← reference_link_step placeholder model api1
  let api3 := parameters_step model api2
  pure (dictSet (dictSet api3 "createdAt" (.str now)) "updatedAt" (.str now))

/-- Embedding: `BaseModelMapper.map_to_api_schema` (model_mapper.py lines 39-65),
    generic in the subclass implementation: non-dict input is rejected by
    `validate_input`, exceptions become error results. -/
def map_to_api_schema_with (impl : PyDict → Except PyErr PyDict)
    (model_data : PyVal) : PyDict :=
  match model_data with
  | .dict m =>
      match impl m with
      | .ok mapped => [("success", .bool true), ("mapped_model", .dict mapped)]
      | .error e => excResult "Model mapping error: " e
  | _ => errResult "Invalid input for model mapping"

/-- Embedding: `StandardModelMapper`'s public `map_to_api_schema`. -/
def map_to_api_schema (placeholder now : String) (model_data : PyVal) : PyDict :=
  map_to_api_schema_with (map_to_api_schema_impl placeholder now) model_data

/-- Embedding: `BaseModelMapper.validate_api_model` (model_mapper.py lines 84-115):
    all violated checks in order (required fields, tagIds list-typed,
    referenceLink non-empty). -/
def validate_api_model (api : PyDict) : List String :=
  let req := ["modelId", "name", "description"]
  let e1 := req.filterMap fun f =>
    if !(containsKey api f) || !pyTruthy (dictGet api f PyVal.null) then
      some ("Missing required field: " ++ f)
    else Option.none
  let e2 :=
    match lookup? api "tagIds" with
    | some (.list _) => []
    | _ => ["Missing or invalid tagIds (must be a list)"]
  let e3 :=
    if !(containsKey api "referenceLink") ||
        !pyTruthy (dictGet api "referenceLink" PyVal.null) then
      ["Missing referenceLink"]
    else []
  e1 ++ e2 ++ e3

/-- The per-file loop of `BaseModelMapper.map_directory` (model_mapper.py
    lines 162-194).  Input files are (stem, read-result) pairs: a read
    exception, a failed mapping, or a failed validation each append the
    input path to `failed_models`; a success writes the mapped record to
    `out_dir/<stem>_api_payload.json`.  Returns (written output paths,
    failed input paths), both in input order. -/
def map_dir_loop (placeholder now in_dir out_dir : String) :
    List (String × Except PyErr PyVal) → List String × List String
  | [] => ([], [])
  | (stem, read) :: rest =>
      let next := map_dir_loop placeholder now in_dir out_dir rest
      match read with
      | .error _ => (next.1, (in_dir ++ "/" ++ stem ++ ".json") :: next.2)
      | .ok data =>
          let r := map_to_api_schema placeholder now data
          if !pyTruthy (dictGet r "success" PyVal.null) then
            (next.1, (in_dir ++ "/" ++ stem ++ ".json") :: next.2)
          else
            let mapped := asDict (dictGet r "mapped_model" PyVal.null)
            if !(validate_api_model mapped).isEmpty then
              (next.1, (in_dir ++ "/" ++ stem ++ ".json") :: next.2)
            else
              ((out_dir ++ "/" ++ stem ++ "_api_payload.json") :: next.1, next.2)

/-- Aggregate result of a directory pass. -/
structure DirOut where
  success : Bool
  written : List String
  failed : List String
deriving Repr, DecidableEq

/-- Embedding: `BaseModelMapper.map_directory` (model_mapper.py lines 117-213),
    after directory existence checks: aggregate success is
    `len(failed_models) == 0`. -/
def map_directory (placeholder now in_dir out_dir : String)
    (files : List (String × Except PyErr PyVal)) : DirOut :=
  let r := map_dir_loop placeholder now in_dir out_dir files
  ⟨r.2.isEmpty, r.1, r.2⟩

/-! ### Seeder (src/pipeline/seeder.py)

`RestApiSeeder._seed_model_impl` posts the record and retries inside a
`while attempt < self.retries` loop.  The HTTP transport is abstracted
as a function from the (1-based) attempt number to what `requests.post`
did on that attempt. -/

/-- What one `requests.post` call produced: the status code, the parsed
    JSON body if `response.json()` succeeds, and `response.text`. -/
structure HttpResponse where
  status_code : Nat
  jsonBody : Option PyVal
  text : String

/-- Outcome of one transport attempt: a response, or a raised
    `requests.exceptions.RequestException` (connection error, timeout). -/
inductive TransportResult where
  | response (r : HttpResponse)
  | requestError (ty msg : String)

/-- One finished `_seed_model_impl` run: the returned result dict, the
    number of attempts made, and the sleeps performed between attempts. -/
structure SeedRun where
  result : PyDict
  attempts : Nat
  sleeps : List Nat
deriving Repr, DecidableEq

/-- The retry loop of `RestApiSeeder._seed_model_impl` (seeder.py lines
    267-341).  `attempt` counts attempts made so far; `remaining` is the
    number of loop iterations the `attempt < retries` guard still
    allows, so the loop is entered with `attempt = 0` and
    `remaining = retries`.  Statuses 200/201/202 succeed; otherwise the
    error message is built (which evaluates `error_data.get` and can
    raise on a non-dict JSON body) and a retry happens only when
    `attempt < retries and status_code >= 500`; a request exception
    retries only when `attempt < retries`. -/
def seedGo (retries retry_delay : Nat) (transport : Nat → TransportResult) :
    Nat → Nat → List Nat → Except PyErr SeedRun
  | attempt, 0, sleeps =>
      .ok ⟨[("success", .bool false),
            ("error", .dict [("message",
              .str ("All " ++ toString retries ++ " attempts failed"))])],
           attempt, sleeps⟩
  | attempt, remaining + 1, sleeps =>
      let attempt := attempt + 1
      match transport attempt with
      | .response r =>
          if r.status_code = 200 ∨ r.status_code = 201 ∨ r.status_code = 202 then
            let response_data := r.jsonBody.getD
              (.dict [("message", .str "Success (no JSON response)")])
            .ok ⟨[("success", .bool true), ("response", response_data),
                  ("status_code", .int r.status_code)], attempt, sleeps⟩
          else do
            let error_data := r.jsonBody.getD
              (.dict [("message",
                .str (if r.text.isEmpty then "Unknown error" else r.text))])
            let msgVal ← pyAttrGet error_data "message" (.str "Unknown error")
            let error_message := "API request failed with status " ++
              toString r.status_code ++ ": " ++ pyStr msgVal
            if attempt < retries ∧ 500 ≤ r.status_code then
              seedGo retries retry_delay transport attempt remaining
                (sleeps ++ [retry_delay])
            else
              .ok ⟨[("success", .bool false),
                    ("error", .dict [("message", .str error_message),
                      ("status_code", .int r.status_code),
                      ("response", error_data)])], attempt, sleeps⟩
      | .requestError ty msg =>
          if attempt < retries then
            seedGo retries retry_delay transport attempt remaining
              (sleeps ++ [retry_delay])
          else
            .ok ⟨[("success", .bool false),
                  ("error", .dict [("message", .str ("Request error: " ++ msg)),
                    ("type", .str ty)])], attempt, sleeps⟩

/-- Embedding: `RestApiSeeder._seed_model_impl` for a transport: the loop started
    at `attempt = 0`.  The defaults in `__init__` are `retries = 3`,
    `retry_delay = 2`. -/
def rest_seed_model_impl (retries retry_delay : Nat)
    (transport : Nat → TransportResult) : Except PyErr SeedRun :=
  seedGo retries retry_delay transport 0 retries []

/-- Embedding: `BaseSeeder.seed_model` (seeder.py lines 37-65), generic in the
    subclass implementation: non-dict model data or falsy api_url is
    rejected, exceptions become error results. -/
def seed_model_with (impl : PyDict → PyVal → Except PyErr PyDict)
    (model_data api_url : PyVal) : PyDict :=
  match model_data with
  | .dict m =>
      if pyTruthy api_url then
        match impl m api_url with
        | .ok r => r
        | .error e => excResult "Seeding error: " e
      else errResult "Invalid input for seeding"
  | _ => errResult "Invalid input for seeding"

/-- Embedding: `RestApiSeeder.seed_model` for a given transport. -/
def rest_seed_model (retries retry_delay : Nat)
    (transport : Nat → TransportResult) (model_data api_url : PyVal) : PyDict :=
  seed_model_with
    (fun _ _ => (rest_seed_model_impl retries retry_delay transport).map SeedRun.result)
    model_data api_url

/-- The per-file loop of `BaseSeeder.seed_directory` (seeder.py lines
    132-163), with the per-model seeding outcome abstracted as `seedOf`.
    Returns (seeded entries, failed entries) in input order.  A read
    exception, or the AttributeError from `model_data.get` on a
    non-dict record, is caught per file and appends a
    `{"file", "error"}` entry. -/
def seed_dir_loop (in_dir : String) (seedOf : PyVal → PyDict) :
    List (String × Except PyErr PyVal) → List PyDict × List PyDict
  | [] => ([], [])
  | (stem, read) :: rest =>
      let next := seed_dir_loop in_dir seedOf rest
      let path := in_dir ++ "/" ++ stem ++ ".json"
      match read with
      | .error e => (next.1, [("file", .str path), ("error", .str e.msg)] :: next.2)
      | .ok data =>
          let r := seedOf data
          match data with
          | .dict m =>
              if pyTruthy (dictGet r "success" PyVal.null) then
                ([("file", .str path),
                  ("modelId", dictGet m "modelId" (.str "unknown")),
                  ("name", dictGet m "name" (.str "unknown")),
                  ("response", dictGet r "response" (.dict []))] :: next.1,
                 next.2)
              else
                (next.1,
                 [("file", .str path),
                  ("modelId", dictGet m "modelId" (.str "unknown")),
                  ("name", dictGet m "name" (.str "unknown")),
                  ("error", dictGet (asDict (dictGet r "error" (.dict [])))
                    "message" (.str "Unknown error"))] :: next.2)
          | _ =>
              (next.1,
               [("file", .str path),
                ("error", .str "object has no attribute get")] :: next.2)

/-- Embedding: `BaseSeeder.seed_directory` (seeder.py lines 87-182) after the
    directory checks: aggregate success is `len(failed_models) == 0`. -/
def seed_directory (in_dir : String) (seedOf : PyVal → PyDict)
    (files : List (String × Except PyErr PyVal)) : Bool × List PyDict × List PyDict :=
  let r := seed_dir_loop in_dir seedOf files
  (r.2.isEmpty, r.1, r.2)

/-! ### Dictionary and loop lemmas -/

/-- Setting one key leaves every other key's lookup unchanged. -/
theorem lookup_dictSet_ne (d : PyDict) (k key : String) (v : PyVal)
    (h : key ≠ k) : lookup? (dictSet d k v) key = lookup? d key := by
  induction d with
  | nil =>
      simp only [dictSet, lookup?]
      rw [if_neg (fun hk => h hk.symm)]
  | cons kv rest ih =>
      obtain ⟨k1, v1⟩ := kv
      by_cases h1 : k1 = k
      · subst h1
        simp only [dictSet, if_pos rfl, lookup?]
        rw [if_neg (fun hk => h hk.symm), if_neg (fun hk => h hk.symm)]
      · simp only [dictSet, if_neg h1, lookup?]
        by_cases h2 : k1 = key
        · rw [if_pos h2, if_pos h2]
        · rw [if_neg h2, if_neg h2, ih]

/-- Setting a key makes its lookup return the new value. -/
theorem lookup_dictSet_self (d : PyDict) (k : String) (v : PyVal) :
    lookup? (dictSet d k v) k = some v := by
  induction d with
  | nil => simp [dictSet, lookup?]
  | cons kv rest ih =>
      obtain ⟨k1, v1⟩ := kv
      by_cases h1 : k1 = k
      · subst h1; simp [dictSet, lookup?]
      · simp [dictSet, if_neg h1, lookup?, ih]

/-- The fallback loop never overwrites a key already in the working map:
    lookups of existing keys are unchanged by a whole pass. -/
theorem fallbackLoop_preserve (a : Bool) (tags : List String) :
    ∀ (wm : PyDict) (nid : Int) (k : String), (lookup? wm k).isSome →
      lookup? (fallbackLoop a tags wm nid).2.2.1 k = lookup? wm k := by
  induction tags with
  | nil => intro wm nid k _; rfl
  | cons tag rest ih =>
      intro wm nid k hk
      simp only [fallbackLoop]
      cases hl : lookup? wm tag with
      | some v => simpa using ih wm nid k hk
      | none =>
          cases hs : substrFind tag wm with
          | some v => simpa using ih wm nid k hk
          | none =>
              cases a with
              | false => simpa using ih wm nid k hk
              | true =>
                  have hne : k ≠ tag := by
                    intro he; rw [he, hl] at hk; simp at hk
                  have hk2 : (lookup? (dictSet wm tag (.int nid)) k).isSome := by
                    rw [lookup_dictSet_ne wm tag k _ hne]; exact hk
                  have := ih (dictSet wm tag (.int nid)) (nid + 1) k hk2
                  simpa [lookup_dictSet_ne wm tag k _ hne] using this

/-- Every key present in the working map after the fallback loop was
    either present before or is one of the processed tag names. -/
theorem fallbackLoop_newKeys (a : Bool) (tags : List String) :
    ∀ (wm : PyDict) (nid : Int) (k : String),
      (lookup? (fallbackLoop a tags wm nid).2.2.1 k).isSome →
      (lookup? wm k).isSome ∨ k ∈ tags := by
  induction tags with
  | nil => intro wm nid k h; exact Or.inl h
  | cons tag rest ih =>
      intro wm nid k h
      simp only [fallbackLoop] at h
      cases hl : lookup? wm tag with
      | some v =>
          rw [hl] at h
          rcases ih wm nid k (by simpa using h) with h2 | h2
          · exact Or.inl h2
          · exact Or.inr (List.mem_cons_of_mem _ h2)
      | none =>
          rw [hl] at h
          cases hs : substrFind tag wm with
          | some v =>
              rw [hs] at h
              rcases ih wm nid k (by simpa using h) with h2 | h2
              · exact Or.inl h2
              · exact Or.inr (List.mem_cons_of_mem _ h2)
          | none =>
              rw [hs] at h
              cases a with
              | false =>
                  rcases ih wm nid k (by simpa using h) with h2 | h2
                  · exact Or.inl h2
                  · exact Or.inr (List.mem_cons_of_mem _ h2)
              | true =>
                  rcases ih (dictSet wm tag (.int nid)) (nid + 1) k
                      (by simpa using h) with h2 | h2
                  · by_cases he : k = tag
                    · exact Or.inr (he ▸ List.mem_cons_self _ _)
                    · rw [lookup_dictSet_ne wm tag k _ he] at h2
                      exact Or.inl h2
                  · exact Or.inr (List.mem_cons_of_mem _ h2)

/-- The strict lookup loop in closed form: ids are the found values in
    input order, unmapped tags are the misses in input order. -/
theorem simpleLoop_eq (tagMap : PyDict) (tags : List String) :
    simpleLoop tagMap tags =
      (tags.filterMap (lookup? tagMap),
       tags.filter fun t => (lookup? tagMap t).isNone) := by
  induction tags with
  | nil => rfl
  | cons tag rest ih =>
      simp only [simpleLoop, ih]
      cases hl : lookup? tagMap tag with
      | some v => simp [List.filterMap_cons, List.filter_cons, hl]
      | none => simp [List.filterMap_cons, List.filter_cons, hl]

/-- When every tag is found, the strict loop keeps every value and
    records no miss. -/
theorem filterMap_lookup_all (tagMap : PyDict) (ts : List String)
    (h : ∀ t ∈ ts, (lookup? tagMap t).isSome) :
    ts.filterMap (lookup? tagMap) =
        ts.map (fun t => (lookup? tagMap t).getD PyVal.null) ∧
      ts.filter (fun t => (lookup? tagMap t).isNone) = [] := by
  induction ts with
  | nil => simp
  | cons t rest ih =>
      have ht := h t (List.mem_cons_self _ _)
      obtain ⟨v, hv⟩ := Option.isSome_iff_exists.mp ht
      have hrest := ih (fun x hx => h x (List.mem_cons_of_mem _ hx))
      simp [List.filterMap_cons, List.filter_cons, hv, hrest.1, hrest.2]

/-- C4: for every tag map and every tag list in which every tag, after
    lower-casing and stringification, is a key of the tag map, strict
    resolution maps each input tag to exactly the tag map's value, in
    input order, with length preserved and no unresolved tags. -/
theorem C4_strict_all_present (model tagMap : PyDict) (tags : List PyVal)
    (hm : lookup? model "tags" = some (.list tags))
    (hall : ∀ t ∈ tags, (lookup? tagMap (pyLower (pyStr t))).isSome) :
    ∃ out, simple_map_tags_impl model tagMap = .ok out ∧
      out.tagIds =
        tags.map (fun t => (lookup? tagMap (pyLower (pyStr t))).getD PyVal.null) ∧
      out.tagIds.length = tags.length ∧
      out.unmapped = [] ∧
      lookup? out.taggedModel "tagIds" = some (.list out.tagIds) := by
  have hget : dictGet model "tags" (.list []) = .list tags := by
    simp [dictGet, hm]
  cases tags with
  | nil =>
      refine ⟨⟨dictSet model "tagIds" (.list []), [], []⟩, ?_, ?_, ?_, ?_, ?_⟩
      · simp [simple_map_tags_impl, hget, pyTruthy]
      · simp
      · simp
      · simp
      · exact lookup_dictSet_self model "tagIds" (.list [])
  | cons t0 rest =>
      have hall2 : ∀ s ∈ normalizeTags (t0 :: rest), (lookup? tagMap s).isSome := by
        intro s hs
        simp only [normalizeTags, List.mem_map] at hs
        obtain ⟨t, htmem, rfl⟩ := hs
        exact hall t htmem
      have hfm := filterMap_lookup_all tagMap (normalizeTags (t0 :: rest)) hall2
      have hids : (simpleLoop tagMap (normalizeTags (t0 :: rest))).1 =
          (t0 :: rest).map
            (fun t => (lookup? tagMap (pyLower (pyStr t))).getD PyVal.null) := by
        rw [simpleLoop_eq, hfm.1]
        simp [normalizeTags, List.map_map, Function.comp]
      have hun : (simpleLoop tagMap (normalizeTags (t0 :: rest))).2 = [] := by
        rw [simpleLoop_eq]
        exact hfm.2
      refine ⟨⟨dictSet model "tagIds"
          (.list (simpleLoop tagMap (normalizeTags (t0 :: rest))).1),
          (simpleLoop tagMap (normalizeTags (t0 :: rest))).1,
          (simpleLoop tagMap (normalizeTags (t0 :: rest))).2⟩, ?_, ?_, ?_, ?_, ?_⟩
      · simp [simple_map_tags_impl, hget, pyTruthy, pyIterate]
      · exact hids
      · rw [hids]; simp
      · exact hun
      · exact lookup_dictSet_self model "tagIds" _

/-- Closed witness instantiating `C4_strict_all_present`. -/
theorem C4_witness :
    (lookup? [("tags", PyVal.list [.str "A", .str "b"])] "tags" =
        some (.list [.str "A", .str "b"])) ∧
    (∀ t ∈ [PyVal.str "A", .str "b"],
        (lookup? [("a", PyVal.int 1), ("b", PyVal.int 2)]
          (pyLower (pyStr t))).isSome) ∧
    (∃ out, simple_map_tags_impl [("tags", PyVal.list [.str "A", .str "b"])]
        [("a", PyVal.int 1), ("b", PyVal.int 2)] = .ok out ∧
      out.tagIds =
        [PyVal.str "A", .str "b"].map
          (fun t => (lookup? [("a", PyVal.int 1), ("b", PyVal.int 2)]
            (pyLower (pyStr t))).getD PyVal.null) ∧
      out.tagIds.length = [PyVal.str "A", .str "b"].length ∧
      out.unmapped = [] ∧
      lookup? out.taggedModel "tagIds" = some (.list out.tagIds)) :=
  ⟨by decide, by intro t ht; fin_cases ht <;> decide,
   C4_strict_all_present [("tags", PyVal.list [.str "A", .str "b"])]
     [("a", PyVal.int 1), ("b", PyVal.int 2)] [PyVal.str "A", .str "b"]
     (by decide) (by intro t ht; fin_cases ht <;> decide)⟩

/-- Tag map of the spec's auto-create example. -/
def c1Map : PyDict := [("a", .int 1)]

/-- Model whose tags are `["a", "zzz"]`. -/
def c1Model : PyDict := [("name", .str "m"), ("tags", .list [.str "a", .str "zzz"])]

/-- Model whose tags are `["a", "zzz", "zzz2"]`. -/
def c1ModelB : PyDict :=
  [("name", .str "m"), ("tags", .list [.str "a", .str "zzz", .str "zzz2"])]

/-- C1 fails on the code: with tag map `{"a": 1}` the auto-create counter
    is re-seeded to `max(existing numeric ids) + 1 = 2`, so `"zzz"` gets
    id 2, not 1000; the working map holds `"zzz": 2`; and a subsequent
    `"zzz2"` resolves to 2 via substring matching against the freshly
    created `"zzz"` entry, not to a newly minted 1001. -/
theorem C1_counterexample :
    (fallback_map_tags_impl true 1000 c1Model c1Map).toOption.map
        FallbackOut.tagIds = some [.int 1, .int 2] ∧
    some [PyVal.int 1, PyVal.int 2] ≠ some [PyVal.int 1, PyVal.int 1000] ∧
    (fallback_map_tags_impl true 1000 c1Model c1Map).toOption.map
        (fun out => lookup? out.workingMap "zzz") = some (some (.int 2)) ∧
    some (some (PyVal.int 2)) ≠ some (some (PyVal.int 1000)) ∧
    (fallback_map_tags_impl true 1000 c1ModelB c1Map).toOption.map
        FallbackOut.tagIds = some [.int 1, .int 2, .int 2] ∧
    some [PyVal.int 1, PyVal.int 2, PyVal.int 2] ≠
      some [PyVal.int 1, PyVal.int 1000, PyVal.int 1001] := by
  decide

/-- C1 amended: with auto-create enabled and tag map `{"a": 1}`,
    resolving `["a", "zzz"]` yields `tagIds = [1, 2]` — the counter is
    seeded from `max(existing numeric ids) + 1`, the construction-time
    default 1000 applying only when the map has no numeric ids — the
    working map then holds `"zzz": 2`, and a subsequent `"zzz2"` in the
    same pass resolves to 2 by substring match against the new `"zzz"`
    entry.  With an id-free tag map the default seed 1000 is used. -/
theorem C1_amended_behaviour :
    (∃ out, fallback_map_tags_impl true 1000 c1Model c1Map = .ok out ∧
      out.tagIds = [.int 1, .int 2] ∧
      lookup? out.workingMap "zzz" = some (.int 2) ∧
      out.nextTagId = 3) ∧
    (∃ out, fallback_map_tags_impl true 1000 c1ModelB c1Map = .ok out ∧
      out.tagIds = [.int 1, .int 2, .int 2]) ∧
    (∃ out, fallback_map_tags_impl true 1000
        [("name", .str "m"), ("tags", .list [.str "zzz"])] [] = .ok out ∧
      out.tagIds = [.int 1000]) :=
  ⟨⟨_, rfl, by decide, by decide, by decide⟩,
   ⟨_, rfl, by decide⟩, ⟨_, rfl, by decide⟩⟩

/-- Two models of one directory pass, both tagged `"zzz"`. -/
def c3Files : List (String × PyVal) :=
  [("m1", .dict [("tags", .list [.str "zzz"])]),
   ("m2", .dict [("tags", .list [.str "zzz"])])]

/-- C3 fails on the code: in one directory pass over an empty tag map,
    the first model's auto-created `"zzz"` gets id 1000 but the second
    model's identical tag gets 1001 — the working map is rebuilt from the
    caller's map for every model, so the minted entry is not reused. -/
theorem C3_counterexample :
    (tag_map_dir_loop true "in" "out" (.dict []) c3Files 1000).1.map
        (fun wr => lookup? wr.2 "tagIds") =
      [some (.list [.int 1000]), some (.list [.int 1001])] ∧
    PyVal.list [PyVal.int 1000] ≠ PyVal.list [PyVal.int 1001] := by
  decide

/-- C3 amended: the working tag map is scoped to a single per-model
    resolve — every key it ends with was in the caller's map or among
    that same model's normalised tags, so nothing minted for one model
    leaks to the next; only the instance counter persists, re-seeded
    from the map's numeric ids when any exist, so a later model's
    identical unknown tag is minted afresh (1000 then 1001 over an
    id-free map; twice 2 over `{"a": 1}` where re-seeding repeats). -/
theorem C3_amended_scoping :
    (∀ a st (model tagMap : PyDict) out,
      fallback_map_tags_impl a st model tagMap = .ok out →
      ∀ k, (lookup? out.workingMap k).isSome →
        (lookup? tagMap k).isSome ∨
        ∃ tags, pyIterate (dictGet model "tags" (.list [])) = .ok tags ∧
          k ∈ normalizeTags tags) ∧
    ((tag_map_dir_loop true "in" "out" (.dict []) c3Files 1000).1.map
        (fun wr => lookup? wr.2 "tagIds") =
      [some (.list [.int 1000]), some (.list [.int 1001])]) ∧
    ((tag_map_dir_loop true "in" "out" (.dict [("a", .int 1)]) c3Files 1000).1.map
        (fun wr => lookup? wr.2 "tagIds") =
      [some (.list [.int 2]), some (.list [.int 2])]) := by
  refine ⟨?_, by decide, by decide⟩
  intro a st model tagMap out hok k hk
  unfold fallback_map_tags_impl at hok
  by_cases ht : pyTruthy (dictGet model "tags" (.list []))
  · rw [if_neg (by simp [ht])] at hok
    cases hit : pyIterate (dictGet model "tags" (.list [])) with
    | error e => rw [hit] at hok; cases hok
    | ok tags =>
        rw [hit] at hok
        cases hok
        rcases fallbackLoop_newKeys a (normalizeTags tags) tagMap _ k hk
          with h2 | h2
        · exact Or.inl h2
        · exact Or.inr ⟨tags, rfl, h2⟩
  · rw [if_pos (by simp [ht])] at hok
    cases hok
    exact Or.inl hk

/-- Closed witness instantiating the general part of
    `C3_amended_scoping` at a tagless model. -/
theorem C3_witness :
    (lookup? [("a", PyVal.int 1)] "a").isSome ∨
    ∃ tags, pyIterate (dictGet [] "tags" (.list [])) = .ok tags ∧
      "a" ∈ normalizeTags tags :=
  C3_amended_scoping.1 true 1000 [] [("a", PyVal.int 1)]
    ⟨[("tagIds", .list [])], [], [], [("a", PyVal.int 1)], 1000⟩
    rfl "a" (by decide)

/-- A model with one tag that the empty tag map cannot resolve. -/
def c5Model : PyVal := .dict [("name", .str "m"), ("tags", .list [.str "nope"])]

/-- C5 fails on the code: resolving a model with an unresolvable tag
    returns a dict whose only keys are success and tagged_model — the
    unresolved names (here `["nope"]`) are computed internally and
    logged, but no list of unresolved tags is returned to the caller. -/
theorem C5_counterexample :
    simple_map_tags c5Model (.dict []) =
      [("success", .bool true),
       ("tagged_model", .dict
         [("name", .str "m"), ("tags", .list [.str "nope"]),
          ("tagIds", .list [])])] ∧
    (simple_map_tags c5Model (.dict [])).map Prod.fst =
      ["success", "tagged_model"] ∧
    containsKey (simple_map_tags c5Model (.dict [])) "unresolvedTags" = false ∧
    (simple_map_tags_impl [("name", .str "m"), ("tags", .list [.str "nope"])]
        []).toOption.map TagOut.unmapped = some ["nope"] := by
  decide

/-- C5 amended: the per-model resolve returns only success and the
    resolved record; unresolved tag names (the normalised tags the map
    misses, in order) are computed and logged but not returned, and
    their presence never makes the call report failure — for the strict
    mapper the result is always success with the tagged record, and the
    fallback mapper's result dict has the same two keys. -/
theorem C5_amended_reporting (model tagMap : PyDict) (tags : List PyVal)
    (hm : lookup? model "tags" = some (.list tags)) :
    (∃ out, simple_map_tags_impl model tagMap = .ok out ∧
      simple_map_tags (.dict model) (.dict tagMap) =
        [("success", .bool true), ("tagged_model", .dict out.taggedModel)] ∧
      out.unmapped = (normalizeTags tags).filter
        (fun t => (lookup? tagMap t).isNone) ∧
      out.tagIds = (normalizeTags tags).filterMap (lookup? tagMap)) ∧
    (∀ a st, (fallback_map_tags a st (.dict model) (.dict tagMap)).1.map
        Prod.fst = ["success", "tagged_model"]) := by
  have hget : dictGet model "tags" (.list []) = .list tags := by
    simp [dictGet, hm]
  constructor
  · cases tags with
    | nil =>
        refine ⟨⟨dictSet model "tagIds" (.list []), [], []⟩, ?_, ?_, ?_, ?_⟩
        · simp [simple_map_tags_impl, hget, pyTruthy]
        · simp [simple_map_tags, map_tags_with, simple_map_tags_impl, hget,
            pyTruthy]
        · simp [normalizeTags]
        · simp [normalizeTags]
    | cons t0 rest =>
        refine ⟨⟨dictSet model "tagIds"
            (.list (simpleLoop tagMap (normalizeTags (t0 :: rest))).1),
            (simpleLoop tagMap (normalizeTags (t0 :: rest))).1,
            (simpleLoop tagMap (normalizeTags (t0 :: rest))).2⟩, ?_, ?_, ?_, ?_⟩
        · simp [simple_map_tags_impl, hget, pyTruthy, pyIterate]
        · simp [simple_map_tags, map_tags_with, simple_map_tags_impl, hget,
            pyTruthy, pyIterate]
        · rw [simpleLoop_eq]
        · rw [simpleLoop_eq]
  · intro a st
    cases tags with
    | nil =>
        simp [fallback_map_tags, fallback_map_tags_impl, hget, pyTruthy]
    | cons t0 rest =>
        simp [fallback_map_tags, fallback_map_tags_impl, hget, pyTruthy,
          pyIterate]

/-- Closed witness instantiating `C5_amended_reporting`. -/
theorem C5_witness :
    (∃ out, simple_map_tags_impl [("tags", PyVal.list [.str "nope"])] [] =
        .ok out ∧
      simple_map_tags (.dict [("tags", PyVal.list [.str "nope"])]) (.dict []) =
        [("success", .bool true), ("tagged_model", .dict out.taggedModel)] ∧
      out.unmapped = (normalizeTags [PyVal.str "nope"]).filter
        (fun t => (lookup? [] t).isNone) ∧
      out.tagIds = (normalizeTags [PyVal.str "nope"]).filterMap (lookup? [])) ∧
    (∀ a st, (fallback_map_tags a st
        (.dict [("tags", PyVal.list [.str "nope"])]) (.dict [])).1.map
        Prod.fst = ["success", "tagged_model"]) :=
  C5_amended_reporting [("tags", PyVal.list [.str "nope"])] [] [PyVal.str "nope"]
    (by decide)

/-- C8: neither resolve variant mutates the input model or the caller's
    tag map — the returned record agrees with the input on every key
    other than tagIds (it is the copied record with only tagIds set),
    and auto-created entries go only into the working copy, which agrees
    with the caller's map on every key the caller's map has. -/
theorem C8_frame (model tagMap : PyDict) :
    (∀ out k, k ≠ "tagIds" → simple_map_tags_impl model tagMap = .ok out →
      lookup? out.taggedModel k = lookup? model k) ∧
    (∀ a st out, fallback_map_tags_impl a st model tagMap = .ok out →
      (∀ k, k ≠ "tagIds" → lookup? out.taggedModel k = lookup? model k) ∧
      (∀ k, (lookup? tagMap k).isSome →
        lookup? out.workingMap k = lookup? tagMap k)) := by
  constructor
  · intro out k hk hok
    unfold simple_map_tags_impl at hok
    by_cases ht : pyTruthy (dictGet model "tags" (.list []))
    · rw [if_neg (by simp [ht])] at hok
      cases hit : pyIterate (dictGet model "tags" (.list [])) with
      | error e => rw [hit] at hok; cases hok
      | ok tags =>
          rw [hit] at hok
          cases hok
          exact lookup_dictSet_ne model "tagIds" k _ hk
    · rw [if_pos (by simp [ht])] at hok
      cases hok
      exact lookup_dictSet_ne model "tagIds" k _ hk
  · intro a st out hok
    unfold fallback_map_tags_impl at hok
    by_cases ht : pyTruthy (dictGet model "tags" (.list []))
    · rw [if_neg (by simp [ht])] at hok
      cases hit : pyIterate (dictGet model "tags" (.list [])) with
      | error e => rw [hit] at hok; cases hok
      | ok tags =>
          rw [hit] at hok
          cases hok
          refine ⟨fun k hk => lookup_dictSet_ne model "tagIds" k _ hk, ?_⟩
          intro k hk
          exact fallbackLoop_preserve a (normalizeTags tags) tagMap _ k hk
    · rw [if_pos (by simp [ht])] at hok
      cases hok
      exact ⟨fun k hk => lookup_dictSet_ne model "tagIds" k _ hk,
        fun k _ => rfl⟩

/-- Closed witness instantiating `C8_frame`. -/
theorem C8_witness :
    (lookup?
      (match simple_map_tags_impl [("name", PyVal.str "m"),
          ("tags", PyVal.list [.str "a"])] [("a", PyVal.int 1)] with
        | .ok out => out.taggedModel
        | .error _ => []) "name" =
      lookup? [("name", PyVal.str "m"), ("tags", PyVal.list [.str "a"])] "name") ∧
    (lookup?
      (match fallback_map_tags_impl true 1000 [("name", PyVal.str "m"),
          ("tags", PyVal.list [.str "b"])] [("a", PyVal.int 1)] with
        | .ok out => out.workingMap
        | .error _ => []) "a" = lookup? [("a", PyVal.int 1)] "a") := by
  constructor
  · have h := (C8_frame [("name", PyVal.str "m"), ("tags", PyVal.list [.str "a"])]
      [("a", PyVal.int 1)]).1
    exact h _ "name" (by decide) rfl
  · have h := ((C8_frame [("name", PyVal.str "m"), ("tags", PyVal.list [.str "b"])]
      [("a", PyVal.int 1)]).2 true 1000 _ rfl).2
    exact h "a" (by decide)

/-- Lifting a successful implementation run through
    `BaseModelMapper.map_to_api_schema`. -/
theorem map_to_api_schema_ok (ph now : String) (model : PyDict) (m : PyDict)
    (h : map_to_api_schema_impl ph now model = .ok m) :
    map_to_api_schema ph now (.dict model) =
      [("success", .bool true), ("mapped_model", .dict m)] := by
  simp [map_to_api_schema, map_to_api_schema_with, h]

/-- Lifting a raised exception through `map_to_api_schema`. -/
theorem map_to_api_schema_err (ph now : String) (model : PyDict) (e : PyErr)
    (h : map_to_api_schema_impl ph now model = .error e) :
    map_to_api_schema ph now (.dict model) =
      excResult "Model mapping error: " e := by
  simp [map_to_api_schema, map_to_api_schema_with, h]

/-- The record of the C6 example. -/
def c6Model : PyVal :=
  .dict [("name", .str "foo-bar"), ("tags", .list [.str "x"]),
         ("tagIds", .list [.int 9])]

/-- C6: mapping `{name: "foo-bar", tags: ["x"], tagIds: [9]}` produces
    displayName "Foo Bar", tagIds [9] verbatim, referenceLink equal to
    the configured placeholder, and the result passes validation with
    zero errors (for any nonempty placeholder). -/
theorem C6_example (placeholder now : String) (h : placeholder ≠ "") :
    ∃ m, map_to_api_schema placeholder now c6Model =
        [("success", .bool true), ("mapped_model", .dict m)] ∧
      lookup? m "displayName" = some (.str "Foo Bar") ∧
      lookup? m "tagIds" = some (.list [.int 9]) ∧
      lookup? m "referenceLink" = some (.str placeholder) ∧
      validate_api_model m = [] := by
  refine ⟨[("modelId", .str "model-foo-bar"), ("name", .str "foo-bar"),
    ("displayName", .str "Foo Bar"), ("description", .str "Model foo-bar"),
    ("isActive", .bool true), ("version", .str "1.0"),
    ("tagIds", .list [.int 9]), ("referenceLink", .str placeholder),
    ("createdAt", .str now), ("updatedAt", .str now)], ?_, ?_, ?_, ?_, ?_⟩
  · rfl
  · rfl
  · rfl
  · rfl
  · have hp : placeholder.isEmpty = false := by
      cases he : placeholder.isEmpty
      · rfl
      · exact absurd ((String.isEmpty_iff placeholder).mp he) h
    simp [validate_api_model, containsKey, lookup?, dictGet, pyTruthy, hp]
    decide

/-- Closed witness instantiating `C6_example` at the default placeholder. -/
theorem C6_witness :
    ("https://example.com/placeholder" ≠ "") ∧
    ∃ m, map_to_api_schema "https://example.com/placeholder"
        "2024-01-01T00:00:00" c6Model =
        [("success", .bool true), ("mapped_model", .dict m)] ∧
      lookup? m "displayName" = some (.str "Foo Bar") ∧
      lookup? m "tagIds" = some (.list [.int 9]) ∧
      lookup? m "referenceLink" = some (.str "https://example.com/placeholder") ∧
      validate_api_model m = [] :=
  ⟨by decide,
   C6_example "https://example.com/placeholder" "2024-01-01T00:00:00" (by decide)⟩

/-- The value `model_data.get("name", "unknown")` is a string — the only
    shape `_generate_display_name` accepts without raising. -/
def nameOk (model : PyDict) : Bool :=
  match dictGet model "name" (.str "unknown") with
  | .str _ => true
  | _ => false

/-- The reference-link derivation completes without raising: an explicit
    truthy referenceLink, or no metadata, or metadata whose shape the
    `"huggingface" in metadata` / indexing / `.get` chain handles. -/
def metadataOk (model : PyDict) : Bool :=
  (containsKey model "referenceLink" &&
    pyTruthy (dictGet model "referenceLink" PyVal.null)) ||
  !containsKey model "metadata" ||
  (match dictGet model "metadata" PyVal.null with
   | .dict md =>
       match lookup? md "huggingface" with
       | some (.dict _) => true
       | some _ => false
       | Option.none => true
   | .list xs => !xs.contains (.str "huggingface")
   | .str s2 => !pySubstr "huggingface" s2
   | _ => false)

/-- The reference-link stage succeeds exactly when the metadata shape is
    handled (independently of the record built so far). -/
theorem reference_link_step_ok_iff (ph : String) (model api1 : PyDict) :
    (∃ r, reference_link_step ph model api1 = .ok r) ↔
      metadataOk model = true := by
  unfold reference_link_step metadataOk
  by_cases h1 : (containsKey model "referenceLink" &&
      pyTruthy (dictGet model "referenceLink" PyVal.null)) = true
  · rw [if_pos h1]
    simp [h1, pure, Except.pure]
  · rw [Bool.not_eq_true] at h1
    rw [if_neg (by simp [h1])]
    by_cases h2 : containsKey model "metadata" = true
    · rw [if_pos h2]
      cases hmd : dictGet model "metadata" PyVal.null with
      | dict md =>
          cases hhf : lookup? md "huggingface" with
          | some hf =>
              have hck : containsKey md "huggingface" = true := by
                simp [containsKey, hhf]
              cases hf <;>
                simp [h1, h2, hmd, pyContains, hck, hhf, pyIndex, pyAttrGet,
                  bind, Except.bind, pure, Except.pure]
          | none =>
              have hck : containsKey md "huggingface" = false := by
                simp [containsKey, hhf]
              simp [h1, h2, hmd, pyContains, hck, hhf, bind, Except.bind,
                pure, Except.pure]
      | list xs =>
          cases hc : xs.contains (.str "huggingface") <;>
            simp [h1, h2, hmd, pyContains, hc, pyIndex, bind, Except.bind,
              pure, Except.pure]
      | str s2 =>
          cases hc : pySubstr "huggingface" s2 <;>
            simp [h1, h2, hmd, pyContains, hc, pyIndex, bind, Except.bind,
              pure, Except.pure]
      | int n => simp [h1, h2, hmd, pyContains, bind, Except.bind]
      | bool b => simp [h1, h2, hmd, pyContains, bind, Except.bind]
      | null => simp [h1, h2, hmd, pyContains, bind, Except.bind]
    · rw [if_neg h2]
      simp [h1, h2, pure, Except.pure]

/-- The name value is a string exactly when display-name generation
    succeeds. -/
theorem nameOk_iff (model : PyDict) :
    nameOk model = true ↔
      ∃ g, generate_display_name (dictGet model "name" (.str "unknown")) =
        .ok g := by
  unfold nameOk generate_display_name
  cases dictGet model "name" (.str "unknown") <;> simp

/-- The mapping implementation succeeds exactly when the name value is a
    string and the metadata shape is handled. -/
theorem map_impl_ok_iff (ph now : String) (model : PyDict) :
    (∃ m, map_to_api_schema_impl ph now model = .ok m) ↔
      (nameOk model = true ∧ metadataOk model = true) := by
  unfold map_to_api_schema_impl
  cases hg : generate_display_name (dictGet model "name" (.str "unknown")) with
  | error e =>
      have hn : nameOk model = false := by
        cases hname : dictGet model "name" (.str "unknown") with
        | str s => rw [hname] at hg; simp [generate_display_name] at hg
        | int n => simp [nameOk, hname]
        | bool b => simp [nameOk, hname]
        | list xs => simp [nameOk, hname]
        | dict d => simp [nameOk, hname]
        | null => simp [nameOk, hname]
      simp [hg, bind, Except.bind, hn]
  | ok g =>
      have hn : nameOk model = true := (nameOk_iff model).mpr ⟨g, hg⟩
      have hiff := reference_link_step_ok_iff ph model
        (tagIds_step model
          (base_fields model (dictGet model "name" (.str "unknown")) g))
      cases href : reference_link_step ph model
          (tagIds_step model
            (base_fields model (dictGet model "name" (.str "unknown")) g)) with
      | error e =>
          rw [href] at hiff
          have hm : metadataOk model = false := by
            rw [← Bool.not_eq_true, ← hiff]
            rintro ⟨r, hr⟩
            cases hr
          simp [hg, href, bind, Except.bind, hn, hm]
      | ok r =>
          rw [href] at hiff
          have hm : metadataOk model = true := hiff.mp ⟨r, rfl⟩
          simp [hg, href, bind, Except.bind, hn, hm, pure, Except.pure]

/-- C7 fails on the code: two mappings (valid dict inputs) for which
    `map_to_api_schema` returns a failure result rather than degrading
    to defaults — a non-string name raises AttributeError inside
    display-name generation, and a numeric `metadata` value raises
    TypeError in the `"huggingface" in metadata` test. -/
theorem C7_counterexample :
    lookup? (map_to_api_schema "https://example.com/placeholder" "T"
        (.dict [("name", .int 5)])) "success" = some (.bool false) ∧
    lookup? (map_to_api_schema "https://example.com/placeholder" "T"
        (.dict [("name", .str "m"), ("metadata", .int 7)])) "success" =
      some (.bool false) := by
  decide

/-- C7 amended: mapping a valid record succeeds, degrading missing data
    to defaults, whenever the record's name value is a string (or
    absent) and its metadata value is well-formed; a failure result is
    produced exactly for non-mappings, non-string names, or malformed
    metadata (the raised exception being converted by the wrapper). -/
theorem C7_amended_totality (ph now : String) (model : PyDict) :
    (nameOk model = true → metadataOk model = true →
      ∃ m, map_to_api_schema ph now (.dict model) =
        [("success", .bool true), ("mapped_model", .dict m)]) ∧
    ((nameOk model = false ∨ metadataOk model = false) →
      ∃ e, map_to_api_schema ph now (.dict model) =
          excResult "Model mapping error: " e ∧
        lookup? (map_to_api_schema ph now (.dict model)) "success" =
          some (.bool false)) := by
  constructor
  · intro hn hm
    obtain ⟨m, hmm⟩ := (map_impl_ok_iff ph now model).mpr ⟨hn, hm⟩
    exact ⟨m, map_to_api_schema_ok ph now model m hmm⟩
  · intro h
    cases himpl : map_to_api_schema_impl ph now model with
    | ok m =>
        exfalso
        have hok := (map_impl_ok_iff ph now model).mp ⟨m, himpl⟩
        rcases h with h | h
        · rw [hok.1] at h; cases h
        · rw [hok.2] at h; cases h
    | error e =>
        refine ⟨e, map_to_api_schema_err ph now model e himpl, ?_⟩
        rw [map_to_api_schema_err ph now model e himpl]
        rfl

/-- Closed witness instantiating both directions of
    `C7_amended_totality`. -/
theorem C7_witness :
    (∃ m, map_to_api_schema "ph" "T" (.dict [("name", PyVal.str "x")]) =
      [("success", .bool true), ("mapped_model", .dict m)]) ∧
    (∃ e, map_to_api_schema "ph" "T" (.dict [("name", PyVal.int 5)]) =
        excResult "Model mapping error: " e ∧
      lookup? (map_to_api_schema "ph" "T" (.dict [("name", PyVal.int 5)]))
        "success" = some (.bool false)) :=
  ⟨(C7_amended_totality "ph" "T" [("name", PyVal.str "x")]).1
      (by decide) (by decide),
   (C7_amended_totality "ph" "T" [("name", PyVal.int 5)]).2
      (Or.inl (by decide))⟩

/-- A transient failure: a 5xx response or a raised request exception. -/
def transientB : TransportResult → Bool
  | .response r => decide (500 ≤ r.status_code)
  | .requestError _ _ => true

/-- Invariant of the retry loop `seedGo` entered at `a` attempts made
    with `rem` loop iterations allowed (`a + rem = retries`): the
    attempt count stays within the budget, every attempt strictly before
    the final one saw a transient outcome while under the budget, the
    sleeps are exactly one fixed delay per retry, and a success result
    means the final attempt got a 200/201/202 response. -/
theorem seedGo_spec (retries delay : Nat) (transport : Nat → TransportResult) :
    ∀ (rem a : Nat) (sl : List Nat) (run : SeedRun),
      a + rem = retries →
      seedGo retries delay transport a rem sl = .ok run →
      a ≤ run.attempts ∧ run.attempts ≤ retries ∧
      (rem = 0 ∨ a < run.attempts) ∧
      (∀ i, a < i → i < run.attempts →
        transientB (transport i) = true ∧ i < retries) ∧
      run.sleeps = sl ++ List.replicate (run.attempts - a - 1) delay ∧
      (pyTruthy (dictGet run.result "success" PyVal.null) = true →
        ∃ r, transport run.attempts = .response r ∧
          (r.status_code = 200 ∨ r.status_code = 201 ∨ r.status_code = 202)) := by
  intro rem
  induction rem with
  | zero =>
      intro a sl run hinv hok
      simp only [seedGo] at hok
      cases hok
      dsimp only
      refine ⟨le_refl _, by omega, Or.inl rfl, ?_, ?_, ?_⟩
      · intro i h1 h2; omega
      · simp
      · intro hs
        simp [dictGet, lookup?, pyTruthy] at hs
  | succ rem ih =>
      intro a sl run hinv hok
      simp only [seedGo] at hok
      cases htr : transport (a + 1) with
      | response r =>
          rw [htr] at hok
          dsimp only at hok
          by_cases hs : (r.status_code = 200 ∨ r.status_code = 201 ∨
              r.status_code = 202)
          · rw [if_pos hs] at hok
            cases hok
            dsimp only
            refine ⟨by omega, by omega, Or.inr (by omega), ?_, ?_, ?_⟩
            · intro i h1 h2; omega
            · simp
            · intro _
              exact ⟨r, htr, hs⟩
          · rw [if_neg hs] at hok
            cases hget : pyAttrGet
                (r.jsonBody.getD (.dict [("message",
                  .str (if r.text.isEmpty then "Unknown error" else r.text))]))
                "message" (.str "Unknown error") with
            | error e =>
                simp only [hget, bind, Except.bind] at hok
                cases hok
            | ok msgVal =>
                simp only [hget, bind, Except.bind] at hok
                by_cases hc : (a + 1 < retries ∧ 500 ≤ r.status_code)
                · rw [if_pos hc] at hok
                  obtain ⟨ih1, ih2, ih3, ih4, ih5, ih6⟩ :=
                    ih (a + 1) (sl ++ [delay]) run (by omega) hok
                  have hgt : a + 1 < run.attempts := by
                    rcases ih3 with h0 | h0
                    · omega
                    · exact h0
                  refine ⟨by omega, ih2, Or.inr (by omega), ?_, ?_, ih6⟩
                  · intro i h1 h2
                    by_cases hi : i = a + 1
                    · subst hi
                      refine ⟨?_, hc.1⟩
                      rw [htr]
                      simp [transientB, hc.2]
                    · exact ih4 i (by omega) h2
                  · rw [ih5]
                    have hrep : run.attempts - a - 1 =
                        (run.attempts - (a + 1) - 1) + 1 := by omega
                    rw [hrep, List.append_assoc]
                    congr 1
                · rw [if_neg hc] at hok
                  cases hok
                  dsimp only
                  refine ⟨by omega, by omega, Or.inr (by omega), ?_, ?_, ?_⟩
                  · intro i h1 h2; omega
                  · simp
                  · intro hsx
                    simp [dictGet, lookup?, pyTruthy] at hsx
      | requestError ty msg =>
          rw [htr] at hok
          dsimp only at hok
          by_cases hc : a + 1 < retries
          · rw [if_pos hc] at hok
            obtain ⟨ih1, ih2, ih3, ih4, ih5, ih6⟩ :=
              ih (a + 1) (sl ++ [delay]) run (by omega) hok
            have hgt : a + 1 < run.attempts := by
              rcases ih3 with h0 | h0
              · omega
              · exact h0
            refine ⟨by omega, ih2, Or.inr (by omega), ?_, ?_, ih6⟩
            · intro i h1 h2
              by_cases hi : i = a + 1
              · subst hi
                refine ⟨?_, hc⟩
                rw [htr]
                rfl
              · exact ih4 i (by omega) h2
            · rw [ih5]
              have hrep : run.attempts - a - 1 =
                  (run.attempts - (a + 1) - 1) + 1 := by omega
              rw [hrep, List.append_assoc]
              congr 1
          · rw [if_neg hc] at hok
            cases hok
            dsimp only
            refine ⟨by omega, by omega, Or.inr (by omega), ?_, ?_, ?_⟩
            · intro i h1 h2; omega
            · simp
            · intro hsx
              simp [dictGet, lookup?, pyTruthy] at hsx

/-- Every result the retry loop returns carries a boolean success flag. -/
theorem seedGo_success_key (retries delay : Nat)
    (transport : Nat → TransportResult) :
    ∀ (rem a : Nat) (sl : List Nat) (run : SeedRun),
      seedGo retries delay transport a rem sl = .ok run →
      ∃ b, lookup? run.result "success" = some (.bool b) := by
  intro rem
  induction rem with
  | zero =>
      intro a sl run hok
      simp only [seedGo] at hok
      cases hok
      exact ⟨false, rfl⟩
  | succ rem ih =>
      intro a sl run hok
      simp only [seedGo] at hok
      cases htr : transport (a + 1) with
      | response r =>
          rw [htr] at hok
          dsimp only at hok
          by_cases hs : (r.status_code = 200 ∨ r.status_code = 201 ∨
              r.status_code = 202)
          · rw [if_pos hs] at hok
            cases hok
            exact ⟨true, rfl⟩
          · rw [if_neg hs] at hok
            cases hget : pyAttrGet
                (r.jsonBody.getD (.dict [("message",
                  .str (if r.text.isEmpty then "Unknown error" else r.text))]))
                "message" (.str "Unknown error") with
            | error e =>
                simp only [hget, bind, Except.bind] at hok
                cases hok
            | ok msgVal =>
                simp only [hget, bind, Except.bind] at hok
                by_cases hc : (a + 1 < retries ∧ 500 ≤ r.status_code)
                · rw [if_pos hc] at hok
                  exact ih _ _ _ hok
                · rw [if_neg hc] at hok
                  cases hok
                  exact ⟨false, rfl⟩
      | requestError ty msg =>
          rw [htr] at hok
          dsimp only at hok
          by_cases hc : a + 1 < retries
          · rw [if_pos hc] at hok
            exact ih _ _ _ hok
          · rw [if_neg hc] at hok
            cases hok
            exact ⟨false, rfl⟩

/-- Transport returning 503 on attempts 1 and 2, then 201. -/
def c2t1 : Nat → TransportResult
  | 1 => .response ⟨503, some (.dict [("message", .str "busy")]), "busy"⟩
  | 2 => .response ⟨503, some (.dict [("message", .str "busy")]), "busy"⟩
  | _ => .response ⟨201, some (.dict [("id", .str "m1")]), "created"⟩

/-- Transport always returning 400. -/
def c2t400 : Nat → TransportResult
  | _ => .response ⟨400, some (.dict [("message", .str "bad request")]),
      "bad request"⟩

/-- C2: with the default budget of 3 attempts and fixed delay 2, a
    503/503/201 transport succeeds after exactly 3 attempts (two fixed
    sleeps), a 400 transport fails after exactly 1 attempt with the
    status and response body attached; in general every non-final
    attempt saw a transient outcome (5xx or request exception) while
    under the budget, sleeps are one fixed delay per retry, and success
    means the final attempt returned 200, 201 or 202. -/
theorem C2_retry_policy :
    (∃ run, rest_seed_model_impl 3 2 c2t1 = .ok run ∧
      pyTruthy (dictGet run.result "success" PyVal.null) = true ∧
      dictGet run.result "status_code" PyVal.null = .int 201 ∧
      run.attempts = 3 ∧ run.sleeps = [2, 2]) ∧
    (∃ run, rest_seed_model_impl 3 2 c2t400 = .ok run ∧
      pyTruthy (dictGet run.result "success" PyVal.null) = false ∧
      run.attempts = 1 ∧ run.sleeps = [] ∧
      dictGet (asDict (dictGet run.result "error" PyVal.null)) "status_code"
        PyVal.null = .int 400 ∧
      dictGet (asDict (dictGet run.result "error" PyVal.null)) "response"
        PyVal.null = .dict [("message", .str "bad request")]) ∧
    (∀ retries delay transport run,
      rest_seed_model_impl retries delay transport = .ok run →
      run.attempts ≤ retries ∧
      (∀ i, 1 ≤ i → i < run.attempts →
        transientB (transport i) = true ∧ i < retries) ∧
      run.sleeps = List.replicate (run.attempts - 1) delay ∧
      (pyTruthy (dictGet run.result "success" PyVal.null) = true →
        ∃ r, transport run.attempts = .response r ∧
          (r.status_code = 200 ∨ r.status_code = 201 ∨
            r.status_code = 202))) := by
  refine ⟨⟨_, rfl, by decide, by decide, by decide, by decide⟩,
    ⟨_, rfl, by decide, by decide, by decide, by decide, by decide⟩, ?_⟩
  intro retries delay transport run hok
  obtain ⟨h1, h2, h3, h4, h5, h6⟩ :=
    seedGo_spec retries delay transport retries 0 [] run (by omega) hok
  refine ⟨h2, ?_, ?_, h6⟩
  · intro i hi1 hi2
    exact h4 i (by omega) hi2
  · simpa using h5

/-- Closed witness instantiating the general part of `C2_retry_policy`
    at the 503/503/201 transport. -/
theorem C2_witness :
    ∃ run, rest_seed_model_impl 3 2 c2t1 = .ok run ∧ run.attempts ≤ 3 ∧
      run.sleeps = List.replicate (run.attempts - 1) 2 := by
  refine ⟨_, rfl, ?_, ?_⟩
  · exact (C2_retry_policy.2.2 3 2 c2t1 _ rfl).1
  · exact (C2_retry_policy.2.2 3 2 c2t1 _ rfl).2.2.1

/-- One input record of `map_directory` succeeds: it reads, maps with
    success, and passes validation (the loop branch conditions). -/
def map_file_ok (ph now : String) : String × Except PyErr PyVal → Bool
  | (_, .error _) => false
  | (_, .ok data) =>
      let r := map_to_api_schema ph now data
      pyTruthy (dictGet r "success" PyVal.null) &&
        (validate_api_model (asDict (dictGet r "mapped_model" PyVal.null))).isEmpty

/-- One input record of `seed_directory` succeeds: it reads as a dict
    and its seeding result reports success. -/
def seed_file_ok (seedOf : PyVal → PyDict) : String × Except PyErr PyVal → Bool
  | (_, .error _) => false
  | (_, .ok data) =>
      match data with
      | .dict _ => pyTruthy (dictGet (seedOf data) "success" PyVal.null)
      | _ => false

/-- The mapping directory loop in closed form: each record's outcome
    depends only on that record (isolation), successes are written under
    the `_api_payload` names in input order, failures are listed by
    input path in input order. -/
theorem map_dir_loop_eq (ph now i o : String)
    (files : List (String × Except PyErr PyVal)) :
    map_dir_loop ph now i o files =
      ((files.filter (map_file_ok ph now)).map
         (fun f => o ++ "/" ++ f.1 ++ "_api_payload.json"),
       (files.filter (fun f => !map_file_ok ph now f)).map
         (fun f => i ++ "/" ++ f.1 ++ ".json")) := by
  induction files with
  | nil => rfl
  | cons f rest ih =>
      obtain ⟨stem, read⟩ := f
      cases read with
      | error e =>
          simp [map_dir_loop, ih, map_file_ok, List.filter_cons]
      | ok data =>
          by_cases h1 : pyTruthy (dictGet (map_to_api_schema ph now data)
              "success" PyVal.null) = true
          · by_cases h2 : (validate_api_model (asDict (dictGet
                (map_to_api_schema ph now data) "mapped_model"
                PyVal.null))).isEmpty = true
            · simp [map_dir_loop, ih, map_file_ok, List.filter_cons, h1, h2]
            · simp [map_dir_loop, ih, map_file_ok, List.filter_cons, h1, h2]
          · simp [map_dir_loop, ih, map_file_ok, List.filter_cons, h1]

/-- The seeding directory loop records each record's outcome exactly
    once: the seeded and failed lists partition the input by per-record
    success. -/
theorem seed_dir_loop_len (dir : String) (seedOf : PyVal → PyDict)
    (files : List (String × Except PyErr PyVal)) :
    (seed_dir_loop dir seedOf files).1.length =
        (files.filter (seed_file_ok seedOf)).length ∧
      (seed_dir_loop dir seedOf files).2.length =
        (files.filter (fun f => !seed_file_ok seedOf f)).length := by
  induction files with
  | nil => exact ⟨rfl, rfl⟩
  | cons f rest ih =>
      obtain ⟨stem, read⟩ := f
      cases read with
      | error e =>
          simp [seed_dir_loop, ih.1, ih.2, seed_file_ok, List.filter_cons]
      | ok data =>
          cases data with
          | dict m =>
              by_cases h1 : pyTruthy (dictGet (seedOf (.dict m)) "success"
                  PyVal.null) = true
              · simp [seed_dir_loop, ih.1, ih.2, seed_file_ok,
                  List.filter_cons, h1]
              · simp [seed_dir_loop, ih.1, ih.2, seed_file_ok,
                  List.filter_cons, h1]
          | str s2 =>
              simp [seed_dir_loop, ih.1, ih.2, seed_file_ok, List.filter_cons]
          | int n =>
              simp [seed_dir_loop, ih.1, ih.2, seed_file_ok, List.filter_cons]
          | bool b =>
              simp [seed_dir_loop, ih.1, ih.2, seed_file_ok, List.filter_cons]
          | list xs =>
              simp [seed_dir_loop, ih.1, ih.2, seed_file_ok, List.filter_cons]
          | null =>
              simp [seed_dir_loop, ih.1, ih.2, seed_file_ok, List.filter_cons]

/-- Three records of which the middle one fails validation (empty name). -/
def c9Files : List (String × Except PyErr PyVal) :=
  [("m1", .ok (.dict [("name", .str "alpha")])),
   ("m2", .ok (.dict [("name", .str "")])),
   ("m3", .ok (.dict [("name", .str "beta")]))]

/-- C9: directory-level aggregates succeed exactly when zero records
    failed, with per-record isolation (each record's outcome a function
    of that record alone, recorded exactly once); concretely, 3 records
    with 1 validation failure yield success=false, 2 written outputs
    under the deterministic `_api_payload` names and 1 failed model. -/
theorem C9_directory_aggregate :
    (∀ (ph now i o : String) (files : List (String × Except PyErr PyVal)),
      ((map_directory ph now i o files).success = true ↔
        ∀ f ∈ files, map_file_ok ph now f = true) ∧
      (map_directory ph now i o files).written =
        (files.filter (map_file_ok ph now)).map
          (fun f => o ++ "/" ++ f.1 ++ "_api_payload.json") ∧
      (map_directory ph now i o files).failed =
        (files.filter (fun f => !map_file_ok ph now f)).map
          (fun f => i ++ "/" ++ f.1 ++ ".json")) ∧
    (∀ (dir : String) (seedOf : PyVal → PyDict)
        (files : List (String × Except PyErr PyVal)),
      ((seed_directory dir seedOf files).1 = true ↔
        ∀ f ∈ files, seed_file_ok seedOf f = true) ∧
      (seed_directory dir seedOf files).2.1.length =
        (files.filter (seed_file_ok seedOf)).length ∧
      (seed_directory dir seedOf files).2.2.length =
        (files.filter (fun f => !seed_file_ok seedOf f)).length) ∧
    map_directory "ph" "T" "in" "out" c9Files =
      ⟨false, ["out/m1_api_payload.json", "out/m3_api_payload.json"],
       ["in/m2.json"]⟩ := by
  refine ⟨?_, ?_, by decide⟩
  · intro ph now i o files
    refine ⟨?_, ?_, ?_⟩
    · simp [map_directory, map_dir_loop_eq, List.filter_eq_nil_iff]
    · simp [map_directory, map_dir_loop_eq]
    · simp [map_directory, map_dir_loop_eq]
  · intro dir seedOf files
    have hlen := seed_dir_loop_len dir seedOf files
    refine ⟨?_, hlen.1, hlen.2⟩
    rw [seed_directory]
    constructor
    · intro h f hf
      have h0 : (seed_dir_loop dir seedOf files).2.length = 0 := by
        rcases List.isEmpty_iff.mp h with h2
        simp [h2]
      rw [hlen.2] at h0
      have : files.filter (fun f => !seed_file_ok seedOf f) = [] :=
        List.eq_nil_of_length_eq_zero h0
      have hall := List.filter_eq_nil_iff.mp this
      have := hall f hf
      simpa using this
    · intro hall
      have : files.filter (fun f => !seed_file_ok seedOf f) = [] := by
        apply List.filter_eq_nil_iff.mpr
        intro f hf
        simp [hall f hf]
      apply List.isEmpty_iff.mpr
      apply List.eq_nil_of_length_eq_zero
      rw [hlen.2, this]
      rfl

/-- Closed witness instantiating `C9_directory_aggregate` on an empty
    directory. -/
theorem C9_witness :
    (map_directory "ph" "T" "in" "out"
        ([] : List (String × Except PyErr PyVal))).success = true ↔
      ∀ f ∈ ([] : List (String × Except PyErr PyVal)),
        map_file_ok "ph" "T" f = true :=
  (C9_directory_aggregate.1 "ph" "T" "in" "out" []).1

/-- C10: the public per-record wrappers are total — for any input they
    return a result dict with a boolean success flag, and an exception
    inside the implementation becomes a `success: false` error result
    with message and exception type, never a propagated exception. -/
theorem C10_wrapper_totality :
    (∀ (impl : PyDict → PyDict → Except PyErr TagOut) (md tm : PyVal),
      (∃ b, lookup? (map_tags_with impl md tm) "success" =
        some (.bool b)) ∧
      (∀ m t e, md = .dict m → tm = .dict t → impl m t = .error e →
        map_tags_with impl md tm = excResult "Tag mapping error: " e)) ∧
    (∀ (impl : PyDict → Except PyErr PyDict) (md : PyVal),
      (∃ b, lookup? (map_to_api_schema_with impl md) "success" =
        some (.bool b)) ∧
      (∀ m e, md = .dict m → impl m = .error e →
        map_to_api_schema_with impl md =
          excResult "Model mapping error: " e)) ∧
    (∀ (retries delay : Nat) (transport : Nat → TransportResult)
        (md url : PyVal),
      (∃ b, lookup? (rest_seed_model retries delay transport md url)
        "success" = some (.bool b)) ∧
      (∀ e, (∃ m, md = .dict m) → pyTruthy url = true →
        rest_seed_model_impl retries delay transport = .error e →
        rest_seed_model retries delay transport md url =
          excResult "Seeding error: " e)) := by
  refine ⟨?_, ?_, ?_⟩
  · intro impl md tm
    constructor
    · cases md with
      | dict m =>
          cases tm with
          | dict t =>
              cases himpl : impl m t with
              | ok out => exact ⟨true, by simp [map_tags_with, himpl, lookup?]⟩
              | error e =>
                  exact ⟨false, by simp [map_tags_with, himpl, excResult,
                    lookup?]⟩
          | str s => exact ⟨false, rfl⟩
          | int n => exact ⟨false, rfl⟩
          | bool b => exact ⟨false, rfl⟩
          | list xs => exact ⟨false, rfl⟩
          | null => exact ⟨false, rfl⟩
      | str s => exact ⟨false, rfl⟩
      | int n => exact ⟨false, rfl⟩
      | bool b => exact ⟨false, rfl⟩
      | list xs => exact ⟨false, rfl⟩
      | null => exact ⟨false, rfl⟩
    · intro m t e hm ht himpl
      subst hm
      subst ht
      simp [map_tags_with, himpl]
  · intro impl md
    constructor
    · cases md with
      | dict m =>
          cases himpl : impl m with
          | ok out => exact ⟨true, by simp [map_to_api_schema_with, himpl, lookup?]⟩
          | error e =>
              exact ⟨false, by simp [map_to_api_schema_with, himpl,
                excResult, lookup?]⟩
      | str s => exact ⟨false, rfl⟩
      | int n => exact ⟨false, rfl⟩
      | bool b => exact ⟨false, rfl⟩
      | list xs => exact ⟨false, rfl⟩
      | null => exact ⟨false, rfl⟩
    · intro m e hm himpl
      subst hm
      simp [map_to_api_schema_with, himpl]
  · intro retries delay transport md url
    constructor
    · cases md with
      | dict m =>
          by_cases hurl : pyTruthy url = true
          · cases himpl : rest_seed_model_impl retries delay transport with
            | ok run =>
                have hkey := seedGo_success_key retries delay transport
                  retries 0 [] run himpl
                obtain ⟨b, hb⟩ := hkey
                refine ⟨b, ?_⟩
                simp [rest_seed_model, seed_model_with, hurl, himpl]
                exact hb
            | error e =>
                refine ⟨false, ?_⟩
                simp [rest_seed_model, seed_model_with, hurl, himpl,
                  excResult, lookup?]
          · refine ⟨false, ?_⟩
            simp [rest_seed_model, seed_model_with, hurl, errResult, lookup?]
      | str s => exact ⟨false, rfl⟩
      | int n => exact ⟨false, rfl⟩
      | bool b => exact ⟨false, rfl⟩
      | list xs => exact ⟨false, rfl⟩
      | null => exact ⟨false, rfl⟩
    · rintro e ⟨m, hm⟩ hurl himpl
      subst hm
      simp [rest_seed_model, seed_model_with, hurl, himpl, Except.map]

/-- Closed witness instantiating the exception-conversion part of
    `C10_wrapper_totality`. -/
theorem C10_witness :
    map_tags_with (fun _ _ => .error ⟨"ValueError", "boom"⟩)
        (.dict []) (.dict []) =
      excResult "Tag mapping error: " ⟨"ValueError", "boom"⟩ :=
  (C10_wrapper_totality.1 (fun _ _ => .error ⟨"ValueError", "boom"⟩)
      (.dict []) (.dict [])).2 [] [] ⟨"ValueError", "boom"⟩ rfl rfl rfl

end PySeed
